import Mathlib

/-!
Verification development for the TF-Agents abstract agent contract
(`tf_agents/agents/tf_agent.py`): the data model of nested tensor
structures, the validating `train` front-end, the constructor check and
the read-only descriptors, with the properties of the specification
proved or refuted against this embedding.

Machine tensors are modelled by their shapes (lists of naturals);
nested structures (`tf.nest`) are rose trees; Python exceptions become
an explicit error type carrying the exception class and the format
arguments of the raised message.
-/

mutual

inductive Nest (α : Type) where
  | leaf : α → Nest α
  | node : NestList α → Nest α

inductive NestList (α : Type) where
  | nil : NestList α
  | cons : Nest α → NestList α → NestList α

end

mutual

def Nest.map {α β : Type} (f : α → β) : Nest α → Nest β
  | .leaf a => .leaf (f a)
  | .node l => .node (NestList.map f l)

def NestList.map {α β : Type} (f : α → β) : NestList α → NestList β
  | .nil => .nil
  | .cons n l => .cons (Nest.map f n) (NestList.map f l)

end

mutual

def Nest.flatten {α : Type} : Nest α → List α
  | .leaf a => [a]
  | .node l => NestList.flatten l

def NestList.flatten {α : Type} : NestList α → List α
  | .nil => []
  | .cons n l => Nest.flatten n ++ NestList.flatten l

end

/-- A concrete tensor, modelled by its shape (the data values play no
role in the contract's validation logic). -/
structure Tensor where
  shape : List Nat
deriving DecidableEq

/-- A tensor specification: the expected per-field feature shape,
without the outer (batch, time) dimensions. -/
structure TensorSpec where
  shape : List Nat
deriving DecidableEq

mutual

/-- Modelled from the spec: `nest_utils.is_batched_nested_tensors`
(module `tf_agents.utils.nest_utils`, not part of the source slice).
Per the spec's structure/batching check, every tensor must nest-match
the spec and carry exactly `num_outer_dims` leading outer dimensions
beyond the per-field feature shape. -/
def is_batched_nested_tensors : Nest Tensor → Nest TensorSpec → Nat → Bool
  | .leaf t, .leaf s, k =>
      (t.shape.length == s.shape.length + k) && (t.shape.drop k == s.shape)
  | .node ts, .node ss, k => is_batched_nested_list ts ss k
  | _, _, _ => false

/-- List worker for `is_batched_nested_tensors`. -/
def is_batched_nested_list : NestList Tensor → NestList TensorSpec → Nat → Bool
  | .nil, .nil, _ => true
  | .cons t ts, .cons s ss, k =>
      is_batched_nested_tensors t s k && is_batched_nested_list ts ss k
  | _, _, _ => false

end

/-- A policy, as the contract uses it: an opaque capability exposing
`trajectory_spec`, the nested experience-tensor structure it expects. -/
structure Policy where
  name : String
  trajectory_spec : Nest TensorSpec

/-- The `LossInfo` namedtuple `("loss", "extra")` of `tf_agent.py`. -/
structure LossInfo where
  loss : Rat
  extra : List (String × Rat)
deriving DecidableEq

/-- The value the subclass hook `_train` returns: either a genuine
`LossInfo` or some other Python value, kept as its printed form. -/
inductive HookResult where
  | lossInfo : LossInfo → HookResult
  | nonLossInfo : String → HookResult

/-- The `experience` argument of `train`: either a `Trajectory` record
(carrying its nest of tensors) or a value of some other Python type,
kept as that type's name (what `type(experience)` prints). -/
inductive Experience where
  | trajectory : Nest Tensor → Experience
  | nonTrajectory : String → Experience

/-- The Python exception class of a raised error. -/
inductive ExcClass where
  | typeError
  | valueError
  | indexError
deriving DecidableEq

/-- The errors `train` can raise, carrying the format arguments of the
corresponding `raise` statement in the source. `indexError` stands for
the runtime fault Python would raise if `t.shape[1]` were evaluated on
a tensor of rank below two. -/
inductive TrainError where
  | notTrajectory : String → TrainError
  | badOuterDims : Nest (List Nat) → Nest (List Nat) → TrainError
  | badTimeAxis : Nat → Nat → Nest (List Nat) → TrainError
  | indexError : TrainError
  | lossInfoNotLossInfo : String → TrainError

/-- The Python exception class raised at each `raise` site of the
source: `ValueError` at lines 115, 124 and 136, `TypeError` at
line 149. -/
def TrainError.pythonClass : TrainError → ExcClass
  | .notTrajectory _ => .valueError
  | .badOuterDims _ _ => .valueError
  | .badTimeAxis _ _ _ => .valueError
  | .indexError => .indexError
  | .lossInfoNotLossInfo _ => .typeError

/-- Rendering of a tensor shape, as `str(tf.TensorShape)` prints it. -/
def renderShape (s : List Nat) : String :=
  "(" ++ String.intercalate ", " (s.map toString) ++ ")"

mutual

/-- Rendering of a nest of shapes, the model of what `str` prints for
the result of `tf.nest.map_structure(lambda tp: tp.shape, ...)`. -/
def renderShapeNest : Nest (List Nat) → String
  | .leaf s => renderShape s
  | .node l => "[" ++ renderShapeNestList l ++ "]"

/-- List worker for `renderShapeNest`. -/
def renderShapeNestList : NestList (List Nat) → String
  | .nil => ""
  | .cons n l => renderShapeNest n ++ ", " ++ renderShapeNestList l

end

/-- The message of each error, following the format strings of the
source (`%s`/`%d` holes filled with the carried arguments). -/
def TrainError.message : TrainError → String
  | .notTrajectory ty =>
      "experience must be type Trajectory, saw type: " ++ ty
  | .badOuterDims actual expected =>
      "At least one of the tensors in `experience` does not " ++
      "have two outer dimensions. Tensors should be shaped as " ++
      "B x T x [F ...]; batch size, time step, and frame.\n" ++
      "Full shapes of experience tensors:\n" ++ renderShapeNest actual ++
      ".\nFull expected shapes (minus outer dimensions):\n" ++
      renderShapeNest expected ++ "."
  | .badTimeAxis found required shapes =>
      "One of the tensors in `experience` has a time axis " ++
      "dim value \x27" ++ toString found ++ "\x27, but we require dim value \x27" ++
      toString required ++ "\x27.  " ++
      "Full shape structure of experience:\n" ++ renderShapeNest shapes
  | .indexError => "list index out of range"
  | .lossInfoNotLossInfo r =>
      "loss_info is not a subclass of LossInfo: " ++ r

/-- The agent's write-once fields, as assigned by `TFAgent.__init__`
(lines 71-77 of the source). -/
structure Agent where
  _time_step_spec : Nest TensorSpec
  _action_spec : Nest TensorSpec
  _policy : Policy
  _collect_policy : Policy
  _train_sequence_length : Option Nat
  _debug_summaries : Bool
  _summarize_grads_and_vars : Bool

/-- Property `time_step_spec` (source line 161). -/
def time_step_spec (a : Agent) : Nest TensorSpec := a._time_step_spec

/-- Property `action_spec` (source line 172). -/
def action_spec (a : Agent) : Nest TensorSpec := a._action_spec

/-- Property `policy` (source line 181). -/
def policy (a : Agent) : Policy := a._policy

/-- Property `collect_policy` (source line 190). -/
def collect_policy (a : Agent) : Policy := a._collect_policy

/-- Property `collect_data_spec` (source line 199): computed on each
access as `self.collect_policy.trajectory_spec`, never stored. -/
def collect_data_spec (a : Agent) : Nest TensorSpec :=
  (collect_policy a).trajectory_spec

/-- Property `train_sequence_length` (source line 219). -/
def train_sequence_length (a : Agent) : Option Nat := a._train_sequence_length

/-- Property `debug_summaries` (source line 223). -/
def debug_summaries (a : Agent) : Bool := a._debug_summaries

/-- Property `summarize_grads_and_vars` (source line 227). -/
def summarize_grads_and_vars (a : Agent) : Bool := a._summarize_grads_and_vars

/-- Weights argument of `train`: a 0-D or `[batch]` tensor of values,
opaque to the contract, which only forwards it to the hook. -/
abbrev Weights := List Rat

/-- The external train-step counter, opaque to the contract. -/
abbrev Counter := Nat

/-- The subclass hook `_train(experience, weights, train_step_counter)`. -/
abbrev Hook := Nest Tensor → Option Weights → Option Counter → HookResult

/-- One recorded invocation of the `_train` hook: the argument triple
`(experience, weights, train_step_counter)` it was called with. -/
abbrev HookCall := Nest Tensor × Option Weights × Option Counter

/-- What one call of `train` produces: its Python-level outcome (a
returned `LossInfo` or a raised error), the agent object afterwards,
and the trace of `_train` hook invocations made during the call. -/
structure TrainOut where
  result : Except TrainError LossInfo
  agent : Agent
  hook_calls : List HookCall

/-- Outcome of `check_shape` (source lines 133-140) on one tensor:
`indexFault` if `t.shape[1]` itself would fault, `mismatch d` if the
time-axis size `d` differs from `train_sequence_length`. -/
inductive TimeCheck where
  | indexFault : TimeCheck
  | mismatch : Nat → TimeCheck
deriving DecidableEq

/-- The traversal `tf.nest.map_structure(check_shape, experience)`
(source line 142): the first failing tensor, in flatten order, of the
per-tensor time-axis check, or `none` when every tensor passes. -/
def firstTimeFailure (required : Nat) : List Tensor → Option TimeCheck
  | [] => none
  | t :: ts =>
      match t.shape[1]? with
      | none => some .indexFault
      | some d => if d != required then some (.mismatch d) else firstTimeFailure required ts

/-- Delegation step of `train` (source lines 144-151): call the hook
once with `(experience, weights, train_step_counter)`, then check that
its result is a `LossInfo` and return it unchanged. -/
def trainDelegate (a : Agent) (hk : Hook) (exp : Nest Tensor)
    (weights : Option Weights) (train_step_counter : Option Counter) : TrainOut :=
  match hk exp weights train_step_counter with
  | .lossInfo li => ⟨.ok li, a, [(exp, weights, train_step_counter)]⟩
  | .nonLossInfo r => ⟨.error (.lossInfoNotLossInfo r), a, [(exp, weights, train_step_counter)]⟩

/-- `TFAgent.train` (source lines 83-151): the Trajectory type check,
the structure/batching check against `collect_data_spec` with two
outer dimensions, the fixed-length time-axis check when
`train_sequence_length` is not `None`, then delegation to the `_train`
hook and the `LossInfo` result check. -/
def train (a : Agent) (hk : Hook) (experience : Experience)
    (weights : Option Weights) (train_step_counter : Option Counter) : TrainOut :=
  match experience with
  | .nonTrajectory ty => ⟨.error (.notTrajectory ty), a, []⟩
  | .trajectory exp =>
      if !is_batched_nested_tensors exp (collect_data_spec a) 2 then
        ⟨.error (.badOuterDims (Nest.map Tensor.shape exp)
                  (Nest.map TensorSpec.shape (collect_data_spec a))), a, []⟩
      else
        match train_sequence_length a with
        | some required =>
            match firstTimeFailure required exp.flatten with
            | some .indexFault => ⟨.error .indexError, a, []⟩
            | some (.mismatch d) =>
                ⟨.error (.badTimeAxis d required (Nest.map Tensor.shape exp)), a, []⟩
            | none => trainDelegate a hk exp weights train_step_counter
        | none => trainDelegate a hk exp weights train_step_counter

/-- The time-axis side condition of a valid experience batch: when
`train_sequence_length` is a fixed integer, every tensor's axis-1 size
equals it; when it is `None`, no condition. -/
def timeLenOK : Option Nat → Nest Tensor → Bool
  | none, _ => true
  | some required, exp => exp.flatten.all (fun t => t.shape[1]? == some required)

/-- A member name following the internal-hook naming convention: a
leading underscore. -/
def isExtensionName (m : String) : Bool := m.data.take 1 == ['_']

/-- Modelled from the spec: `common.assert_members_are_not_overridden`
(module `tf_agents.utils.common`, not part of the source slice). The
concrete subclass must not override any of the contract's
non-extension methods, where extension methods are the ones named with
the internal-hook naming convention (a leading underscore). -/
def assert_members_are_not_overridden (base_members overridden : List String) : Bool :=
  overridden.all (fun m => isExtensionName m || !(base_members.contains m))

/-- The public members of the `TFAgent` base class, against which the
override check runs. -/
def baseMembers : List String :=
  ["initialize", "train", "time_step_spec", "action_spec", "policy",
   "collect_policy", "collect_data_spec", "train_sequence_length",
   "debug_summaries", "summarize_grads_and_vars"]

/-- A concrete subclass, abstracted to the set of base-class member
names it overrides. -/
structure Subclass where
  overriddenMembers : List String

/-- The configuration error the construction-time override check
raises. -/
inductive ConfigError where
  | membersOverridden : ConfigError
deriving DecidableEq

/-- `TFAgent.__init__` (source lines 37-77): runs the override check
first; only when it passes are the seven agent fields assigned, each
from the corresponding constructor argument. -/
def agentInit (sub : Subclass) (ts acts : Nest TensorSpec) (p cp : Policy)
    (tsl : Option Nat) (ds sg : Bool) : Except ConfigError Agent :=
  if assert_members_are_not_overridden baseMembers sub.overriddenMembers then
    .ok ⟨ts, acts, p, cp, tsl, ds, sg⟩
  else
    .error .membersOverridden

/-- One queued invocation of `train`: its hook and arguments. -/
structure TrainCall where
  hk : Hook
  experience : Experience
  weights : Option Weights
  train_step_counter : Option Counter

/-- The agent object after a sequence of `train` calls, each threading
the agent state explicitly. -/
def runTrains (a : Agent) : List TrainCall → Agent
  | [] => a
  | c :: cs => runTrains (train a c.hk c.experience c.weights c.train_step_counter).agent cs

/-- Substring containment on strings, stated over the character data. -/
def strContainsSub (s sub : String) : Prop :=
  ∃ p q : List Char, s.data = p ++ sub.data ++ q

/-- Example collect-data spec: one tensor field of feature shape 8. -/
def exSpec : Nest TensorSpec := Nest.leaf ⟨[8]⟩

/-- Example collect policy over `exSpec`. -/
def exPolicy : Policy := ⟨"collect", exSpec⟩

/-- Example agent with `train_sequence_length = 2`. -/
def exAgent : Agent :=
  ⟨Nest.leaf ⟨[8]⟩, Nest.leaf ⟨[]⟩, ⟨"serve", exSpec⟩, exPolicy, some 2, false, false⟩

/-- Example agent with `train_sequence_length = None`. -/
def exAgentNoLen : Agent :=
  ⟨Nest.leaf ⟨[8]⟩, Nest.leaf ⟨[]⟩, ⟨"serve", exSpec⟩, exPolicy, none, false, false⟩

/-- Example valid experience: one tensor shaped `[4, 2, 8]`. -/
def exExp : Nest Tensor := Nest.leaf ⟨[4, 2, 8]⟩

/-- Example experience with a wrong time axis: shaped `[4, 3, 8]`. -/
def exExpBadTime : Nest Tensor := Nest.leaf ⟨[4, 3, 8]⟩

/-- Example experience missing the outer dimensions: shaped `[4]`. -/
def exExpBadDims : Nest Tensor := Nest.leaf ⟨[4]⟩

/-- Example hook returning `LossInfo(loss=1.25, extra=())`. -/
def exHook : Hook := fun _ _ _ => .lossInfo ⟨(125 : Rat) / 100, []⟩

/-- Example misbehaving hook returning a raw numeric loss. -/
def exBadHook : Hook := fun _ _ _ => .nonLossInfo "0.5"

/-- Example well-behaved subclass: overrides nothing. -/
def exSub : Subclass := ⟨[]⟩

/-- Example misbehaving subclass: overrides `train`. -/
def exSubBad : Subclass := ⟨["train", "_train"]⟩

/-- Example sequence of `train` calls: one succeeding call, one failing
time-axis check, one failing the type check. -/
def exCalls : List TrainCall :=
  [⟨exHook, Experience.trajectory exExp, none, none⟩,
   ⟨exHook, Experience.trajectory exExpBadTime, none, some 7⟩,
   ⟨exBadHook, Experience.nonTrajectory "int", some [1], none⟩]

example : is_batched_nested_tensors exExp exSpec 2 = true := by decide
example : is_batched_nested_tensors exExpBadDims exSpec 2 = false := by decide
example : (train exAgent exHook (.trajectory exExp) none none).result
    = .ok ⟨(125 : Rat) / 100, []⟩ := by rfl
example : (train exAgent exHook (.trajectory exExpBadTime) none none).result
    = .error (.badTimeAxis 3 2 (Nest.leaf [4, 3, 8])) := by rfl
example : (train exAgent exHook (.trajectory exExpBadDims) none none).result
    = .error (.badOuterDims (Nest.leaf [4]) (Nest.leaf [8])) := by rfl
example : agentInit exSubBad exSpec exSpec exPolicy exPolicy (some 2) false false
    = .error .membersOverridden := by rfl

theorem trainDelegate_agent (a : Agent) (hk : Hook) (exp : Nest Tensor)
    (w : Option Weights) (c : Option Counter) : (trainDelegate a hk exp w c).agent = a := by
  unfold trainDelegate
  cases hk exp w c <;> rfl

theorem trainDelegate_calls (a : Agent) (hk : Hook) (exp : Nest Tensor)
    (w : Option Weights) (c : Option Counter) :
    (trainDelegate a hk exp w c).hook_calls = [(exp, w, c)] := by
  unfold trainDelegate
  cases hk exp w c <;> rfl

theorem train_agent (a : Agent) (hk : Hook) (e : Experience)
    (w : Option Weights) (c : Option Counter) : (train a hk e w c).agent = a := by
  unfold train
  cases e with
  | nonTrajectory ty => rfl
  | trajectory exp =>
      dsimp only
      split
      · rfl
      · cases train_sequence_length a with
        | none => exact trainDelegate_agent a hk exp w c
        | some L =>
            dsimp only
            cases firstTimeFailure L exp.flatten with
            | none => exact trainDelegate_agent a hk exp w c
            | some tc => cases tc <;> rfl

theorem runTrains_id (a : Agent) (calls : List TrainCall) : runTrains a calls = a := by
  induction calls generalizing a with
  | nil => rfl
  | cons c cs ih => rw [runTrains, train_agent, ih]

theorem timeLenOK_some_iff (L : Nat) (exp : Nest Tensor) :
    timeLenOK (some L) exp = true ↔ ∀ t ∈ exp.flatten, t.shape[1]? = some L := by
  simp [timeLenOK, List.all_eq_true]

theorem firstTimeFailure_eq_none (L : Nat) (l : List Tensor)
    (h : ∀ t ∈ l, t.shape[1]? = some L) : firstTimeFailure L l = none := by
  induction l with
  | nil => rfl
  | cons t ts ih =>
      have ht := h t (by simp)
      simp [firstTimeFailure, ht]
      exact ih (fun t' ht' => h t' (List.mem_cons_of_mem _ ht'))

theorem firstTimeFailure_mismatch (L : Nat) (l : List Tensor)
    (hrank : ∀ t ∈ l, 2 ≤ t.shape.length)
    (hbad : ∃ t ∈ l, t.shape[1]? ≠ some L) :
    ∃ d, d ≠ L ∧ firstTimeFailure L l = some (TimeCheck.mismatch d) := by
  induction l with
  | nil => simp at hbad
  | cons t ts ih =>
      have ht : 1 < t.shape.length := hrank t (by simp)
      obtain ⟨d, hd⟩ : ∃ d, t.shape[1]? = some d := ⟨t.shape[1], List.getElem?_eq_getElem ht⟩
      by_cases hdL : d = L
      · subst hdL
        have hbad' : ∃ t' ∈ ts, t'.shape[1]? ≠ some d := by
          rcases hbad with ⟨t', ht', hne⟩
          rcases List.mem_cons.mp ht' with rfl | hmem
          · exact absurd hd hne
          · exact ⟨t', hmem, hne⟩
        obtain ⟨d', hd'1, hd'2⟩ :=
          ih (fun x hx => hrank x (List.mem_cons_of_mem _ hx)) hbad'
        exact ⟨d', hd'1, by simp [firstTimeFailure, hd, hd'2]⟩
      · exact ⟨d, hdL, by simp [firstTimeFailure, hd, hdL]⟩

theorem firstTimeFailure_ne_indexFault (L : Nat) (l : List Tensor)
    (hrank : ∀ t ∈ l, 2 ≤ t.shape.length) :
    firstTimeFailure L l ≠ some TimeCheck.indexFault := by
  induction l with
  | nil => simp [firstTimeFailure]
  | cons t ts ih =>
      have ht : 1 < t.shape.length := hrank t (by simp)
      obtain ⟨d, hd⟩ : ∃ d, t.shape[1]? = some d := ⟨t.shape[1], List.getElem?_eq_getElem ht⟩
      by_cases hdL : d = L
      · subst hdL
        simp [firstTimeFailure, hd]
        exact ih (fun x hx => hrank x (List.mem_cons_of_mem _ hx))
      · simp [firstTimeFailure, hd, hdL]

mutual

theorem isBatched_rank (e : Nest Tensor) (s : Nest TensorSpec) (k : Nat)
    (h : is_batched_nested_tensors e s k = true) :
    ∀ t ∈ e.flatten, k ≤ t.shape.length := by
  cases e with
  | leaf t =>
      cases s with
      | leaf sp =>
          intro t' ht'
          simp [Nest.flatten] at ht'
          subst ht'
          simp [is_batched_nested_tensors] at h
          omega
      | node sl => simp [is_batched_nested_tensors] at h
  | node l =>
      cases s with
      | leaf sp => simp [is_batched_nested_tensors] at h
      | node sl =>
          intro t' ht'
          simp only [Nest.flatten] at ht'
          exact isBatchedList_rank l sl k
            (by simpa [is_batched_nested_tensors] using h) t' ht'

theorem isBatchedList_rank (e : NestList Tensor) (s : NestList TensorSpec) (k : Nat)
    (h : is_batched_nested_list e s k = true) :
    ∀ t ∈ e.flatten, k ≤ t.shape.length := by
  cases e with
  | nil => intro t ht; simp [NestList.flatten] at ht
  | cons n l =>
      cases s with
      | nil => simp [is_batched_nested_list] at h
      | cons sn sl =>
          simp only [is_batched_nested_list, Bool.and_eq_true] at h
          intro t ht
          simp only [NestList.flatten, List.mem_append] at ht
          rcases ht with ht | ht
          · exact isBatched_rank n sn k h.1 t ht
          · exact isBatchedList_rank l sl k h.2 t ht

end

mutual

theorem nestFlatten_map {α β : Type} (f : α → β) (n : Nest α) :
    (Nest.map f n).flatten = n.flatten.map f := by
  cases n with
  | leaf a => simp [Nest.map, Nest.flatten]
  | node l =>
      simp only [Nest.map, Nest.flatten]
      exact nestListFlatten_map f l

theorem nestListFlatten_map {α β : Type} (f : α → β) (l : NestList α) :
    (NestList.map f l).flatten = l.flatten.map f := by
  cases l with
  | nil => simp [NestList.map, NestList.flatten]
  | cons n l' =>
      simp only [NestList.map, NestList.flatten, List.map_append]
      rw [nestFlatten_map f n, nestListFlatten_map f l']

end

theorem strContainsSub_self (s : String) : strContainsSub s s :=
  ⟨[], [], by simp⟩

theorem strContainsSub_trans (s t u : String)
    (h1 : strContainsSub s t) (h2 : strContainsSub t u) : strContainsSub s u := by
  obtain ⟨p, q, hpq⟩ := h1
  obtain ⟨p', q', hp'q'⟩ := h2
  exact ⟨p ++ p', q' ++ q, by simp [hpq, hp'q']⟩

theorem strContainsSub_append (a sub b : String) : strContainsSub (a ++ sub ++ b) sub :=
  ⟨a.data, b.data, by simp [String.data_append]⟩

theorem strContainsSub_mono (a t b sub : String) (h : strContainsSub t sub) :
    strContainsSub (a ++ t ++ b) sub := by
  obtain ⟨p, q, hpq⟩ := h
  exact ⟨a.data ++ p, q ++ b.data, by simp [String.data_append, hpq]⟩

mutual

theorem renderNest_contains (n : Nest (List Nat)) (x : List Nat) (hx : x ∈ n.flatten) :
    strContainsSub (renderShapeNest n) (renderShape x) := by
  cases n with
  | leaf s =>
      simp only [Nest.flatten, List.mem_singleton] at hx
      subst hx
      exact strContainsSub_self (renderShape x)
  | node l =>
      simp only [Nest.flatten] at hx
      have h := renderNestList_contains l x hx
      have : renderShapeNest (.node l) = "[" ++ renderShapeNestList l ++ "]" := rfl
      rw [this]
      exact strContainsSub_mono "[" _ "]" _ h

theorem renderNestList_contains (l : NestList (List Nat)) (x : List Nat)
    (hx : x ∈ l.flatten) : strContainsSub (renderShapeNestList l) (renderShape x) := by
  cases l with
  | nil => simp [NestList.flatten] at hx
  | cons n l' =>
      simp only [NestList.flatten, List.mem_append] at hx
      rcases hx with hx | hx
      · exact strContainsSub_trans _ _ _
          ⟨[], (", " ++ renderShapeNestList l').data,
            by simp [renderShapeNestList, String.data_append]⟩
          (renderNest_contains n x hx)
      · exact strContainsSub_trans _ _ _
          ⟨(renderShapeNest n ++ ", ").data, [],
            by simp [renderShapeNestList, String.data_append]⟩
          (renderNestList_contains l' x hx)

end

theorem train_eq_delegate_of_checks (a : Agent) (hk : Hook) (exp : Nest Tensor)
    (w : Option Weights) (c : Option Counter)
    (hstruct : is_batched_nested_tensors exp (collect_data_spec a) 2 = true)
    (hlen : timeLenOK (train_sequence_length a) exp = true) :
    train a hk (Experience.trajectory exp) w c = trainDelegate a hk exp w c := by
  unfold train
  dsimp only
  rw [hstruct]
  simp only [Bool.not_true, Bool.false_eq_true, if_false]
  cases htsl : train_sequence_length a with
  | none => rfl
  | some L =>
      dsimp only
      rw [firstTimeFailure_eq_none L exp.flatten
        ((timeLenOK_some_iff L exp).mp (htsl ▸ hlen))]

theorem train_outer_dims_error (a : Agent) (hk : Hook) (exp : Nest Tensor)
    (w : Option Weights) (c : Option Counter)
    (hbad : is_batched_nested_tensors exp (collect_data_spec a) 2 = false) :
    train a hk (Experience.trajectory exp) w c =
      ⟨Except.error (TrainError.badOuterDims (Nest.map Tensor.shape exp)
          (Nest.map TensorSpec.shape (collect_data_spec a))), a, []⟩ := by
  unfold train
  dsimp only
  rw [hbad]
  rfl

theorem train_time_axis_error (a : Agent) (hk : Hook) (exp : Nest Tensor)
    (w : Option Weights) (c : Option Counter) (L : Nat)
    (hL : train_sequence_length a = some L)
    (hstruct : is_batched_nested_tensors exp (collect_data_spec a) 2 = true)
    (hbad : ∃ t ∈ exp.flatten, t.shape[1]? ≠ some L) :
    ∃ d, d ≠ L ∧
      train a hk (Experience.trajectory exp) w c =
        ⟨Except.error (TrainError.badTimeAxis d L (Nest.map Tensor.shape exp)), a, []⟩ := by
  have hrank := isBatched_rank exp (collect_data_spec a) 2 hstruct
  obtain ⟨d, hdL, hfail⟩ := firstTimeFailure_mismatch L exp.flatten hrank hbad
  refine ⟨d, hdL, ?_⟩
  unfold train
  dsimp only
  rw [hstruct]
  simp only [Bool.not_true, Bool.false_eq_true, if_false]
  rw [hL]
  dsimp only
  rw [hfail]

/-- C1: For every experience batch whose nested tensor structure matches
`collect_data_spec` with exactly two outer dimensions (batch, time) and,
when `train_sequence_length` is a fixed integer, whose every tensor has
axis-1 size equal to `train_sequence_length`, `train` invokes the
subclass hook `_train` exactly once with `(experience, weights,
train_step_counter)` and returns the hook's `LossInfo` result
unchanged. -/
theorem train_valid_batch_delegates_once
    (a : Agent) (hk : Hook) (exp : Nest Tensor) (w : Option Weights) (c : Option Counter)
    (li : LossInfo)
    (hstruct : is_batched_nested_tensors exp (collect_data_spec a) 2 = true)
    (hlen : timeLenOK (train_sequence_length a) exp = true)
    (hres : hk exp w c = HookResult.lossInfo li) :
    (train a hk (Experience.trajectory exp) w c).hook_calls = [(exp, w, c)] ∧
    (train a hk (Experience.trajectory exp) w c).result = Except.ok li := by
  rw [train_eq_delegate_of_checks a hk exp w c hstruct hlen]
  refine ⟨trainDelegate_calls a hk exp w c, ?_⟩
  unfold trainDelegate
  rw [hres]

/-- Witness for C1: the agent requiring two time steps, experience
shaped `[4, 2, 8]`, a hook returning `LossInfo(1.25, ())`. -/
theorem train_valid_batch_delegates_once_witness :
    is_batched_nested_tensors exExp (collect_data_spec exAgent) 2 = true ∧
    timeLenOK (train_sequence_length exAgent) exExp = true ∧
    exHook exExp none none = HookResult.lossInfo ⟨(125 : Rat) / 100, []⟩ ∧
    ((train exAgent exHook (Experience.trajectory exExp) none none).hook_calls
        = [(exExp, none, none)] ∧
      (train exAgent exHook (Experience.trajectory exExp) none none).result
        = Except.ok ⟨(125 : Rat) / 100, []⟩) :=
  ⟨by decide, by decide, rfl,
    train_valid_batch_delegates_once exAgent exHook exExp none none _
      (by decide) (by decide) rfl⟩

/-- C5: for every call in which the checks pass, if the `_train` hook
returns a value that is not a `LossInfo` record then `train` fails with
a type error, and otherwise the `LossInfo` is returned as-is. -/
theorem train_checks_hook_result
    (a : Agent) (hk : Hook) (exp : Nest Tensor) (w : Option Weights) (c : Option Counter)
    (hstruct : is_batched_nested_tensors exp (collect_data_spec a) 2 = true)
    (hlen : timeLenOK (train_sequence_length a) exp = true) :
    (∀ r, hk exp w c = HookResult.nonLossInfo r →
        (train a hk (Experience.trajectory exp) w c).result
          = Except.error (TrainError.lossInfoNotLossInfo r) ∧
        (TrainError.lossInfoNotLossInfo r).pythonClass = ExcClass.typeError) ∧
    (∀ li, hk exp w c = HookResult.lossInfo li →
        (train a hk (Experience.trajectory exp) w c).result = Except.ok li) := by
  rw [train_eq_delegate_of_checks a hk exp w c hstruct hlen]
  constructor
  · intro r hr
    unfold trainDelegate
    rw [hr]
    exact ⟨rfl, rfl⟩
  · intro li hli
    unfold trainDelegate
    rw [hli]

/-- Witness for C5: a hook returning the raw numeric loss `0.5` makes
`train` fail with a `TypeError`. -/
theorem train_checks_hook_result_witness :
    is_batched_nested_tensors exExp (collect_data_spec exAgent) 2 = true ∧
    timeLenOK (train_sequence_length exAgent) exExp = true ∧
    ((train exAgent exBadHook (Experience.trajectory exExp) none none).result
        = Except.error (TrainError.lossInfoNotLossInfo "0.5") ∧
      (TrainError.lossInfoNotLossInfo "0.5").pythonClass = ExcClass.typeError) :=
  ⟨by decide, by decide,
    (train_checks_hook_result exAgent exBadHook exExp none none
      (by decide) (by decide)).1 "0.5" rfl⟩

/-- C6: when `train_sequence_length` is `None`, `train` performs no
time-axis length check: every experience batch that passes the
Trajectory type check and the two-outer-dimension structure check
reaches the `_train` hook regardless of its time-axis size. -/
theorem train_unconstrained_skips_time_check
    (a : Agent) (hk : Hook) (exp : Nest Tensor) (w : Option Weights) (c : Option Counter)
    (hnone : train_sequence_length a = none)
    (hstruct : is_batched_nested_tensors exp (collect_data_spec a) 2 = true) :
    (train a hk (Experience.trajectory exp) w c).hook_calls = [(exp, w, c)] := by
  have hlen : timeLenOK (train_sequence_length a) exp = true := by rw [hnone]; rfl
  rw [train_eq_delegate_of_checks a hk exp w c hstruct hlen]
  exact trainDelegate_calls a hk exp w c

/-- Witness for C6: the unconstrained agent accepts the `[4, 3, 8]`
batch (time-axis size 3) and calls the hook on it. -/
theorem train_unconstrained_skips_time_check_witness :
    train_sequence_length exAgentNoLen = none ∧
    is_batched_nested_tensors exExpBadTime (collect_data_spec exAgentNoLen) 2 = true ∧
    (train exAgentNoLen exHook (Experience.trajectory exExpBadTime) none none).hook_calls
      = [(exExpBadTime, none, none)] :=
  ⟨rfl, by decide,
    train_unconstrained_skips_time_check exAgentNoLen exHook exExpBadTime none none
      rfl (by decide)⟩

theorem badTimeAxis_msg_contains_found (d L : Nat) (shapes : Nest (List Nat)) :
    strContainsSub ((TrainError.badTimeAxis d L shapes).message) (toString d) :=
  ⟨("One of the tensors in `experience` has a time axis ").data ++ ("dim value \x27").data,
   ("\x27, but we require dim value \x27").data ++ (toString L).data ++ ("\x27.  ").data ++
     ("Full shape structure of experience:\n").data ++ (renderShapeNest shapes).data,
   by simp [TrainError.message, String.data_append, List.append_assoc]⟩

theorem badTimeAxis_msg_contains_required (d L : Nat) (shapes : Nest (List Nat)) :
    strContainsSub ((TrainError.badTimeAxis d L shapes).message) (toString L) :=
  ⟨("One of the tensors in `experience` has a time axis ").data ++ ("dim value \x27").data ++
     (toString d).data ++ ("\x27, but we require dim value \x27").data,
   ("\x27.  ").data ++ ("Full shape structure of experience:\n").data ++
     (renderShapeNest shapes).data,
   by simp [TrainError.message, String.data_append, List.append_assoc]⟩

theorem badTimeAxis_msg_contains_shapes (d L : Nat) (shapes : Nest (List Nat)) :
    strContainsSub ((TrainError.badTimeAxis d L shapes).message) (renderShapeNest shapes) :=
  ⟨("One of the tensors in `experience` has a time axis ").data ++ ("dim value \x27").data ++
     (toString d).data ++ ("\x27, but we require dim value \x27").data ++ (toString L).data ++
     ("\x27.  ").data ++ ("Full shape structure of experience:\n").data,
   [],
   by simp [TrainError.message, String.data_append, List.append_assoc]⟩

set_option maxRecDepth 20000 in
theorem badOuterDims_msg_contains_actual (actual expected : Nest (List Nat)) :
    strContainsSub ((TrainError.badOuterDims actual expected).message)
      (renderShapeNest actual) :=
  ⟨("At least one of the tensors in `experience` does not ").data ++
     ("have two outer dimensions. Tensors should be shaped as ").data ++
     ("B x T x [F ...]; batch size, time step, and frame.\n").data ++
     ("Full shapes of experience tensors:\n").data,
   (".\nFull expected shapes (minus outer dimensions):\n").data ++
     (renderShapeNest expected).data ++ (".").data,
   by simp [TrainError.message, String.data_append, List.append_assoc]⟩

set_option maxRecDepth 20000 in
theorem badOuterDims_msg_contains_expected (actual expected : Nest (List Nat)) :
    strContainsSub ((TrainError.badOuterDims actual expected).message)
      (renderShapeNest expected) :=
  ⟨("At least one of the tensors in `experience` does not ").data ++
     ("have two outer dimensions. Tensors should be shaped as ").data ++
     ("B x T x [F ...]; batch size, time step, and frame.\n").data ++
     ("Full shapes of experience tensors:\n").data ++ (renderShapeNest actual).data ++
     (".\nFull expected shapes (minus outer dimensions):\n").data,
   (".").data,
   by simp [TrainError.message, String.data_append, List.append_assoc]⟩

/-- C3: for every experience batch (a Trajectory matching
`collect_data_spec` with two outer dimensions) where
`train_sequence_length` is a fixed integer and some tensor's axis-1
(time) size differs from it, `train` fails with a value error before
invoking the `_train` hook, and the error's message names both the
found axis-1 value and the required value and includes the full
per-tensor shape structure of the experience. -/
theorem train_time_axis_mismatch_fails
    (a : Agent) (hk : Hook) (exp : Nest Tensor) (w : Option Weights) (c : Option Counter)
    (L : Nat)
    (hL : train_sequence_length a = some L)
    (hstruct : is_batched_nested_tensors exp (collect_data_spec a) 2 = true)
    (hbad : ∃ t ∈ exp.flatten, t.shape[1]? ≠ some L) :
    ∃ d, d ≠ L ∧
      (train a hk (Experience.trajectory exp) w c).result
        = Except.error (TrainError.badTimeAxis d L (Nest.map Tensor.shape exp)) ∧
      (TrainError.badTimeAxis d L (Nest.map Tensor.shape exp)).pythonClass
        = ExcClass.valueError ∧
      (train a hk (Experience.trajectory exp) w c).hook_calls = [] ∧
      strContainsSub ((TrainError.badTimeAxis d L (Nest.map Tensor.shape exp)).message)
        (toString d) ∧
      strContainsSub ((TrainError.badTimeAxis d L (Nest.map Tensor.shape exp)).message)
        (toString L) ∧
      strContainsSub ((TrainError.badTimeAxis d L (Nest.map Tensor.shape exp)).message)
        (renderShapeNest (Nest.map Tensor.shape exp)) := by
  obtain ⟨d, hdL, htrain⟩ := train_time_axis_error a hk exp w c L hL hstruct hbad
  exact ⟨d, hdL, by rw [htrain], rfl, by rw [htrain],
    badTimeAxis_msg_contains_found d L _,
    badTimeAxis_msg_contains_required d L _,
    badTimeAxis_msg_contains_shapes d L _⟩

/-- Witness for C3: `train_sequence_length = 2` and tensors shaped
`[4, 3, 8]`; the raised error carries found value 3 and required
value 2. -/
theorem train_time_axis_mismatch_fails_witness :
    train_sequence_length exAgent = some 2 ∧
    is_batched_nested_tensors exExpBadTime (collect_data_spec exAgent) 2 = true ∧
    (∃ t ∈ exExpBadTime.flatten, t.shape[1]? ≠ some 2) ∧
    (∃ d, d ≠ 2 ∧
      (train exAgent exHook (Experience.trajectory exExpBadTime) none none).result
        = Except.error (TrainError.badTimeAxis d 2 (Nest.map Tensor.shape exExpBadTime)) ∧
      (TrainError.badTimeAxis d 2 (Nest.map Tensor.shape exExpBadTime)).pythonClass
        = ExcClass.valueError ∧
      (train exAgent exHook (Experience.trajectory exExpBadTime) none none).hook_calls = [] ∧
      strContainsSub ((TrainError.badTimeAxis d 2 (Nest.map Tensor.shape exExpBadTime)).message)
        (toString d) ∧
      strContainsSub ((TrainError.badTimeAxis d 2 (Nest.map Tensor.shape exExpBadTime)).message)
        (toString 2) ∧
      strContainsSub ((TrainError.badTimeAxis d 2 (Nest.map Tensor.shape exExpBadTime)).message)
        (renderShapeNest (Nest.map Tensor.shape exExpBadTime))) ∧
    (train exAgent exHook (Experience.trajectory exExpBadTime) none none).result
      = Except.error (TrainError.badTimeAxis 3 2 (Nest.leaf [4, 3, 8])) :=
  ⟨rfl, by decide, by decide,
    train_time_axis_mismatch_fails exAgent exHook exExpBadTime none none 2
      rfl (by decide) (by decide),
    rfl⟩

/-- C4: for every Trajectory experience in which some tensor does not
carry exactly two leading outer dimensions beyond its per-field
feature shape, or whose nesting does not match `collect_data_spec`,
`train` fails with a value error without invoking the `_train` hook,
and the error's message contains, for every tensor in the nested
structure, both its actual shape and the corresponding expected shape
from the spec. -/
theorem train_structure_mismatch_fails
    (a : Agent) (hk : Hook) (exp : Nest Tensor) (w : Option Weights) (c : Option Counter)
    (hbad : is_batched_nested_tensors exp (collect_data_spec a) 2 = false) :
    (train a hk (Experience.trajectory exp) w c).result
      = Except.error (TrainError.badOuterDims (Nest.map Tensor.shape exp)
          (Nest.map TensorSpec.shape (collect_data_spec a))) ∧
    (TrainError.badOuterDims (Nest.map Tensor.shape exp)
        (Nest.map TensorSpec.shape (collect_data_spec a))).pythonClass
      = ExcClass.valueError ∧
    (train a hk (Experience.trajectory exp) w c).hook_calls = [] ∧
    (∀ t ∈ exp.flatten,
      strContainsSub ((TrainError.badOuterDims (Nest.map Tensor.shape exp)
          (Nest.map TensorSpec.shape (collect_data_spec a))).message)
        (renderShape t.shape)) ∧
    (∀ s ∈ (collect_data_spec a).flatten,
      strContainsSub ((TrainError.badOuterDims (Nest.map Tensor.shape exp)
          (Nest.map TensorSpec.shape (collect_data_spec a))).message)
        (renderShape s.shape)) := by
  have htrain := train_outer_dims_error a hk exp w c hbad
  refine ⟨by rw [htrain], rfl, by rw [htrain], ?_, ?_⟩
  · intro t ht
    refine strContainsSub_trans _ _ _ (badOuterDims_msg_contains_actual _ _) ?_
    refine renderNest_contains _ _ ?_
    rw [nestFlatten_map]
    exact List.mem_map_of_mem _ ht
  · intro s hs
    refine strContainsSub_trans _ _ _ (badOuterDims_msg_contains_expected _ _) ?_
    refine renderNest_contains _ _ ?_
    rw [nestFlatten_map]
    exact List.mem_map_of_mem _ hs

/-- Witness for C4: the tensor shaped `[4]` carries fewer than two
outer dimensions over the spec shape `[8]`, so `train` raises the
outer-dimension value error and makes no hook call. -/
theorem train_structure_mismatch_fails_witness :
    is_batched_nested_tensors exExpBadDims (collect_data_spec exAgent) 2 = false ∧
    ((train exAgent exHook (Experience.trajectory exExpBadDims) none none).result
        = Except.error (TrainError.badOuterDims (Nest.map Tensor.shape exExpBadDims)
            (Nest.map TensorSpec.shape (collect_data_spec exAgent))) ∧
      (TrainError.badOuterDims (Nest.map Tensor.shape exExpBadDims)
          (Nest.map TensorSpec.shape (collect_data_spec exAgent))).pythonClass
        = ExcClass.valueError ∧
      (train exAgent exHook (Experience.trajectory exExpBadDims) none none).hook_calls = [] ∧
      (∀ t ∈ exExpBadDims.flatten,
        strContainsSub ((TrainError.badOuterDims (Nest.map Tensor.shape exExpBadDims)
            (Nest.map TensorSpec.shape (collect_data_spec exAgent))).message)
          (renderShape t.shape)) ∧
      (∀ s ∈ (collect_data_spec exAgent).flatten,
        strContainsSub ((TrainError.badOuterDims (Nest.map Tensor.shape exExpBadDims)
            (Nest.map TensorSpec.shape (collect_data_spec exAgent))).message)
          (renderShape s.shape))) :=
  ⟨by decide,
    train_structure_mismatch_fails exAgent exHook exExpBadDims none none (by decide)⟩

/-- C2: evaluation of `train` at a non-Trajectory input. The code at
source line 115 raises a ValueError, although the claim and the
method's own docstring (source lines 107-108) promise a TypeError for
this case; the message does identify the offending type, and the
`_train` hook is not invoked. -/
theorem train_non_trajectory_raises_valueError :
    (train exAgent exHook (Experience.nonTrajectory "<class \x27int\x27>") none none).result
      = Except.error (TrainError.notTrajectory "<class \x27int\x27>") ∧
    (TrainError.notTrajectory "<class \x27int\x27>").pythonClass = ExcClass.valueError ∧
    (TrainError.notTrajectory "<class \x27int\x27>").pythonClass ≠ ExcClass.typeError ∧
    (train exAgent exHook (Experience.nonTrajectory "<class \x27int\x27>") none none).hook_calls
      = [] ∧
    strContainsSub ((TrainError.notTrajectory "<class \x27int\x27>").message)
      "<class \x27int\x27>" :=
  ⟨rfl, rfl, by decide, rfl,
    ⟨("experience must be type Trajectory, saw type: ").data, [],
      by simp [TrainError.message, String.data_append]⟩⟩

/-- C10: the fixed-length check's access to axis 1 of each tensor's
shape is always in range: `train` never faults with an index error on
any input, because the time-axis check runs only after the structure
check has established at least two outer dimensions on every tensor. -/
theorem train_never_index_faults
    (a : Agent) (hk : Hook) (e : Experience) (w : Option Weights) (c : Option Counter) :
    (train a hk e w c).result ≠ Except.error TrainError.indexError := by
  unfold train
  cases e with
  | nonTrajectory ty => simp
  | trajectory exp =>
      dsimp only
      split
      · simp
      · rename_i hcond
        have hstruct : is_batched_nested_tensors exp (collect_data_spec a) 2 = true := by
          revert hcond
          cases is_batched_nested_tensors exp (collect_data_spec a) 2 <;> simp
        have hrank := isBatched_rank exp (collect_data_spec a) 2 hstruct
        cases train_sequence_length a with
        | none =>
            unfold trainDelegate
            cases hk exp w c <;> simp
        | some L =>
            dsimp only
            cases hf : firstTimeFailure L exp.flatten with
            | none =>
                unfold trainDelegate
                cases hk exp w c <;> simp
            | some tc =>
                cases tc with
                | indexFault =>
                    exact absurd hf (firstTimeFailure_ne_indexFault L exp.flatten hrank)
                | mismatch d => simp

/-- C7: if the concrete subclass overrides any of the contract's
non-extension methods, construction raises a configuration error and
does not complete: no agent value is produced, because the override
check runs before any field assignment. -/
theorem agentInit_rejects_override
    (sub : Subclass) (ts acts : Nest TensorSpec) (p cp : Policy)
    (tsl : Option Nat) (ds sg : Bool)
    (hbad : ∃ m ∈ sub.overriddenMembers, isExtensionName m = false ∧ m ∈ baseMembers) :
    agentInit sub ts acts p cp tsl ds sg = Except.error ConfigError.membersOverridden ∧
    ∀ a : Agent, agentInit sub ts acts p cp tsl ds sg ≠ Except.ok a := by
  have hassert :
      assert_members_are_not_overridden baseMembers sub.overriddenMembers = false := by
    rcases hbad with ⟨m, hm, hext, hmem⟩
    cases hall : assert_members_are_not_overridden baseMembers sub.overriddenMembers
    · rfl
    · exfalso
      have h2 := List.all_eq_true.mp hall m hm
      simp [hext, hmem] at h2
  unfold agentInit
  rw [hassert]
  exact ⟨rfl, fun a h => by simp at h⟩

/-- Witness for C7: the subclass overriding `train` (a non-extension
member of the base class) fails construction. -/
theorem agentInit_rejects_override_witness :
    (∃ m ∈ exSubBad.overriddenMembers, isExtensionName m = false ∧ m ∈ baseMembers) ∧
    (agentInit exSubBad exSpec exSpec exPolicy exPolicy (some 2) false false
        = Except.error ConfigError.membersOverridden ∧
      ∀ a : Agent,
        agentInit exSubBad exSpec exSpec exPolicy exPolicy (some 2) false false
          ≠ Except.ok a) :=
  ⟨by decide,
    agentInit_rejects_override exSubBad exSpec exSpec exPolicy exPolicy (some 2) false false
      (by decide)⟩

/-- C8: `collect_data_spec` is not independently stored: every access
computes `collect_policy.trajectory_spec`, so for every agent, at
construction and after any sequence of `train` calls, it equals the
trajectory spec of the collect policy supplied at construction. -/
theorem collect_data_spec_is_derived
    (sub : Subclass) (ts acts : Nest TensorSpec) (p cp : Policy) (tsl : Option Nat)
    (ds sg : Bool) (a : Agent)
    (h : agentInit sub ts acts p cp tsl ds sg = Except.ok a) :
    collect_data_spec a = cp.trajectory_spec ∧
    (∀ calls, collect_data_spec (runTrains a calls) = cp.trajectory_spec) ∧
    (∀ b : Agent, collect_data_spec b = (collect_policy b).trajectory_spec) := by
  have hcp : collect_policy a = cp := by
    unfold agentInit at h
    split at h
    · injection h with h'
      subst h'
      rfl
    · cases h
  exact ⟨by rw [collect_data_spec, hcp],
    fun calls => by rw [runTrains_id, collect_data_spec, hcp],
    fun b => rfl⟩

/-- Witness for C8: the example agent built by `agentInit` from
`exPolicy` reports `exPolicy.trajectory_spec`, also after the example
train calls. -/
theorem collect_data_spec_is_derived_witness :
    agentInit exSub (Nest.leaf ⟨[8]⟩) (Nest.leaf ⟨[]⟩) ⟨"serve", exSpec⟩ exPolicy
        (some 2) false false = Except.ok exAgent ∧
    (collect_data_spec exAgent = exPolicy.trajectory_spec ∧
      (∀ calls, collect_data_spec (runTrains exAgent calls) = exPolicy.trajectory_spec) ∧
      (∀ b : Agent, collect_data_spec b = (collect_policy b).trajectory_spec)) :=
  ⟨rfl,
    collect_data_spec_is_derived exSub (Nest.leaf ⟨[8]⟩) (Nest.leaf ⟨[]⟩)
      ⟨"serve", exSpec⟩ exPolicy (some 2) false false exAgent rfl⟩

/-- C9: every agent field is written exactly once, at construction,
and is left unchanged by every invocation of `train` and of every
descriptor accessor: after any sequence of `train` calls the agent is
the very record built at construction, and each descriptor returns the
corresponding constructor argument. -/
theorem agent_fields_write_once
    (sub : Subclass) (ts acts : Nest TensorSpec) (p cp : Policy) (tsl : Option Nat)
    (ds sg : Bool) (a : Agent) (calls : List TrainCall)
    (h : agentInit sub ts acts p cp tsl ds sg = Except.ok a) :
    runTrains a calls = a ∧
    time_step_spec (runTrains a calls) = ts ∧
    action_spec (runTrains a calls) = acts ∧
    policy (runTrains a calls) = p ∧
    collect_policy (runTrains a calls) = cp ∧
    train_sequence_length (runTrains a calls) = tsl ∧
    debug_summaries (runTrains a calls) = ds ∧
    summarize_grads_and_vars (runTrains a calls) = sg := by
  have ha : a = ⟨ts, acts, p, cp, tsl, ds, sg⟩ := by
    unfold agentInit at h
    split at h
    · injection h with h'
      exact h'.symm
    · cases h
  subst ha
  simp [runTrains_id, time_step_spec, action_spec, policy, collect_policy,
    train_sequence_length, debug_summaries, summarize_grads_and_vars]

/-- Witness for C9: after the three example train calls (one
succeeding, two failing), every descriptor of the example agent still
returns its constructor argument. -/
theorem agent_fields_write_once_witness :
    agentInit exSub (Nest.leaf ⟨[8]⟩) (Nest.leaf ⟨[]⟩) ⟨"serve", exSpec⟩ exPolicy
        (some 2) false false = Except.ok exAgent ∧
    (runTrains exAgent exCalls = exAgent ∧
      time_step_spec (runTrains exAgent exCalls) = Nest.leaf ⟨[8]⟩ ∧
      action_spec (runTrains exAgent exCalls) = Nest.leaf ⟨[]⟩ ∧
      policy (runTrains exAgent exCalls) = ⟨"serve", exSpec⟩ ∧
      collect_policy (runTrains exAgent exCalls) = exPolicy ∧
      train_sequence_length (runTrains exAgent exCalls) = some 2 ∧
      debug_summaries (runTrains exAgent exCalls) = false ∧
      summarize_grads_and_vars (runTrains exAgent exCalls) = false) :=
  ⟨rfl,
    agent_fields_write_once exSub (Nest.leaf ⟨[8]⟩) (Nest.leaf ⟨[]⟩) ⟨"serve", exSpec⟩
      exPolicy (some 2) false false exAgent exCalls rfl⟩
